import Mathlib

/-!
Shallow embedding of the peddler watch-execution and change-detection
pipeline: the scraper service (`executeScraper`, `processListings`), the
DynamoDB-backed listing store (`getListing`, `saveListing`,
`updateListingPrice`), the notification fan-out (`sendNotifications`,
`getSecretValue`) and the batch scheduler loop from the scheduler handler.

Prices and thresholds are modelled as rationals (the TypeScript source uses
JS numbers; all arithmetic relevant to the verified properties is exact).
Timestamps that the code only copies around are kept as strings; the
`Date.now()` clock is passed in explicitly.
-/

/- Batteries marks the `Rat` field operations `@[irreducible]`; closed
instances below evaluate them, so restore the default reducibility in this
file. -/
attribute [local semireducible] Rat.mul Rat.inv Rat.sub Rat.add

/-- `Listing` record, from `src/types/index.ts`. -/
structure Listing where
  scraperId : String
  listingId : String
  title : String
  price : ℚ
  previousPrice : Option ℚ := none
  location : String
  url : String
  imageUrl : Option String := none
  firstSeen : String
  lastSeen : String
  expiresAt : Int
deriving DecidableEq, Repr

/-- Slack channel configuration, from `src/types/index.ts`. -/
structure SlackConfig where
  enabled : Bool
  webhook : String
deriving DecidableEq, Repr

/-- Telegram channel configuration, from `src/types/index.ts`. -/
structure TelegramConfig where
  enabled : Bool
  botToken : String
  chatId : String
deriving DecidableEq, Repr

/-- Pushover channel configuration, from `src/types/index.ts`. -/
structure PushoverConfig where
  enabled : Bool
  userKey : String
  appToken : String
deriving DecidableEq, Repr

/-- `NotificationConfig`, from `src/types/index.ts`; each channel is optional. -/
structure NotificationConfig where
  slack : Option SlackConfig := none
  telegram : Option TelegramConfig := none
  pushover : Option PushoverConfig := none
deriving DecidableEq, Repr

/-- `ScraperConfig`, from `src/types/index.ts`. The marketplace union type
`'facebook' | 'craigslist' | 'ebay'` is modelled as a string. -/
structure ScraperConfig where
  id : String
  name : String
  enabled : Bool
  marketplace : String
  query : String
  location : String
  radius : ℚ
  priceMin : Option ℚ := none
  priceMax : Option ℚ := none
  includeKeywords : Option (List String) := none
  excludeKeywords : Option (List String) := none
  scrollDepth : Nat
  priceDropThreshold : ℚ
  notifications : NotificationConfig
deriving DecidableEq, Repr

/-- `ScrapingResult`, from `src/types/index.ts`. -/
structure ScrapingResult where
  scraperId : String
  success : Bool
  error : Option String := none
  newListings : List Listing
  priceDrops : List Listing
  totalFound : Nat
  executionTime : Nat
deriving DecidableEq, Repr

/-- `NotificationPayload`, from `src/types/index.ts`; `type` is the string
union `'new_listing' | 'price_drop'`. -/
structure NotificationPayload where
  type : String
  listing : Listing
  scraper : ScraperConfig
  priceDropPercentage : Option ℚ := none
deriving DecidableEq, Repr

/-- `AppConfig`, from `src/types/index.ts`. -/
structure AppConfig where
  scrapers : List ScraperConfig
deriving DecidableEq, Repr

/-! ## Item Store (`DatabaseService`, `src/services/database.ts`)

The DynamoDB table is modelled as an association list of `Listing` records
with composite key `(scraperId, listingId)`; a `Put`/`Update` replaces the
record with that key. -/

/-- The listing table. -/
abbrev Db := List Listing

/-- Key predicate for the `(scraperId, listingId)` composite key. -/
def keyMatches (scraperId listingId : String) (l : Listing) : Bool :=
  l.scraperId == scraperId && l.listingId == listingId

/-- Thirty-day TTL in seconds, `30 * 24 * 60 * 60`, used by both
`saveListing` and `updateListingPrice`. -/
def ttlSeconds : Int := 30 * 24 * 60 * 60

/-- `DatabaseService.getListing`: `GetCommand` by composite key. -/
def getListing (db : Db) (scraperId listingId : String) : Option Listing :=
  db.find? (keyMatches scraperId listingId)

/-- `DatabaseService.saveListing`: `PutCommand` of the listing with
`expiresAt` set to now + 30 days; a put replaces any record with the same
key. -/
def saveListing (db : Db) (listing : Listing) (now : Int) : Db :=
  { listing with expiresAt := now + ttlSeconds } ::
    db.filter (fun l => !keyMatches listing.scraperId listing.listingId l)

/-- `DatabaseService.updateListingPrice`: reads the current record (returning
`none` and leaving the table unchanged when absent), then issues
`SET price = :newPrice, previousPrice = :prevPrice, lastSeen = :lastSeen,
expiresAt = :expiresAt` with `:prevPrice` the current price, and returns the
updated record (`ReturnValues: ALL_NEW`). -/
def updateListingPrice (db : Db) (scraperId listingId : String)
    (newPrice : ℚ) (lastSeen : String) (now : Int) : Option Listing × Db :=
  match getListing db scraperId listingId with
  | none => (none, db)
  | some current =>
    let updated := { current with
      price := newPrice
      previousPrice := some current.price
      lastSeen := lastSeen
      expiresAt := now + ttlSeconds }
    (some updated, updated :: db.filter (fun l => !keyMatches scraperId listingId l))

/-- The Item Store interface consumed by `ScraperService.processListings`
(the `dbService` collaborator), abstracted over the store state so that
store behaviours other than the pure in-memory one can be analysed. -/
structure DbOps (σ : Type) where
  getListing : σ → String → String → Option Listing
  saveListing : σ → Listing → Int → σ
  updateListingPrice : σ → String → String → ℚ → String → Int → Option Listing × σ

/-- The concrete `DatabaseService` behaviour over the in-memory table. -/
def listOps : DbOps Db where
  getListing := getListing
  saveListing := saveListing
  updateListingPrice := updateListingPrice

/-! ## Change classification

The classification decision embedded in `ScraperService.processListings`
(lines 109–140 of the scraper service): absent record → new item; equal
price → unchanged; otherwise a price drop exactly when
`(existing.price - listing.price) / existing.price >= config.priceDropThreshold`,
with percentage = that fraction × 100 (the fraction reported by
`sendNotifications`). -/

/-- The source's comparison
`priceDropPercentage >= config.priceDropThreshold`, where
`priceDropPercentage = (existingPrice - newPrice) / existingPrice` is a JS
quotient. JS division by a zero `existingPrice` yields a signed infinity
(or `NaN` for a zero numerator), so there the comparison against a finite
threshold is decided by the numerator's sign alone: `+Infinity >= t` is
true, `-Infinity >= t` and `NaN >= t` are false. With a nonzero
`existingPrice` it is the exact rational comparison (ℚ's `x / 0 = 0`
convention would instead misreport a price increase over a zero stored
price as meeting a zero threshold, so the zero case is split out
explicitly). -/
def priceDropMeets (existingPrice newPrice threshold : ℚ) : Bool :=
  if existingPrice = 0 then
    decide (existingPrice - newPrice > 0)
  else
    decide ((existingPrice - newPrice) / existingPrice ≥ threshold)

inductive Classification where
  | NewItem : Classification
  | Unchanged : Classification
  | PriceDrop : ℚ → Classification
deriving DecidableEq, Repr

/-- The per-item classification performed by `processListings`. The carried
percentage is the drop fraction × 100; a drop can only fire at a zero
stored price when the observed price is negative, which no scraped
(non-negative) price produces. -/
def classify (observedPrice : ℚ) (stored : Option Listing) (threshold : ℚ) :
    Classification :=
  match stored with
  | none => .NewItem
  | some existing =>
    if observedPrice ≠ existing.price then
      if priceDropMeets existing.price observedPrice threshold then
        .PriceDrop ((existing.price - observedPrice) / existing.price * 100)
      else .Unchanged
    else .Unchanged

/-! ## `ScraperService.processListings` -/

/-- `ScraperService.processListings`: folds over the scraped listings,
threading the store state and accumulating `newListings` and `priceDrops`
in iteration order. The per-item `try/catch` of the source has no effect
here because the abstracted store operations are total. -/
def processListings {σ : Type} (ops : DbOps σ) (scraped : List Listing)
    (config : ScraperConfig) (db : σ) (now : Int) :
    List Listing × List Listing × σ :=
  match scraped with
  | [] => ([], [], db)
  | listing :: rest =>
    match ops.getListing db listing.scraperId listing.listingId with
    | none =>
      let db1 := ops.saveListing db listing now
      let r := processListings ops rest config db1 now
      (listing :: r.1, r.2.1, r.2.2)
    | some existingListing =>
      if listing.price ≠ existingListing.price then
        -- priceDropPercentage = (existing - new) / existing; its comparison
        -- against the threshold is `priceDropMeets` (see its JS semantics).
        let u := ops.updateListingPrice db listing.scraperId listing.listingId
          listing.price listing.lastSeen now
        let r := processListings ops rest config u.2 now
        match u.1 with
        | some updatedListing =>
          if priceDropMeets existingListing.price listing.price
              config.priceDropThreshold then
            (r.1, updatedListing :: r.2.1, r.2.2)
          else (r.1, r.2.1, r.2.2)
        | none => (r.1, r.2.1, r.2.2)
      else
        let u := ops.updateListingPrice db listing.scraperId listing.listingId
          listing.price listing.lastSeen now
        processListings ops rest config u.2 now

/-! ## Notification fan-out (`NotificationService`, `src/services/notification.ts`) -/

/-- Outcomes of the three channel senders (the bodies of
`sendSlackNotification` / `sendTelegramNotification` /
`sendPushoverNotification`, which rethrow their HTTP errors). -/
structure ChannelEnv where
  slack : NotificationPayload → Except String Unit
  telegram : NotificationPayload → Except String Unit
  pushover : NotificationPayload → Except String Unit

/-- `NotificationService.sendNotifications`: collects one delivery attempt
per enabled channel (the three `if (...?.enabled)` pushes) and settles them
all (`Promise.allSettled`); rejections are logged, none is rethrown, so the
function's value is the full list of per-channel outcomes. -/
def sendNotifications (env : ChannelEnv) (payload : NotificationPayload) :
    List (String × Except String Unit) :=
  (if payload.scraper.notifications.slack.any (·.enabled) then
    [("slack", env.slack payload)] else []) ++
  (if payload.scraper.notifications.telegram.any (·.enabled) then
    [("telegram", env.telegram payload)] else []) ++
  (if payload.scraper.notifications.pushover.any (·.enabled) then
    [("pushover", env.pushover payload)] else [])

/-- The enabled channels of a watcher's channel configuration, in the fixed
slack/telegram/pushover order of `sendNotifications`. -/
def enabledChannels (n : NotificationConfig) : List String :=
  (if n.slack.any (·.enabled) then ["slack"] else []) ++
  (if n.telegram.any (·.enabled) then ["telegram"] else []) ++
  (if n.pushover.any (·.enabled) then ["pushover"] else [])

/-- Dispatch a channel name to its sender outcome. -/
def channelSend (env : ChannelEnv) (name : String)
    (payload : NotificationPayload) : Except String Unit :=
  if name == "slack" then env.slack payload
  else if name == "telegram" then env.telegram payload
  else env.pushover payload

/-! ## Secret resolution (`NotificationService.getSecretValue`)

JS string operations on the configured credential are modelled over
character lists: `key.includes(p)` and `key.replace(p, '')` (which replaces
only the first occurrence). -/

/-- The pattern `'-from-secrets'`. -/
def fromSecretsPat : List Char := "-from-secrets".data

/-- `String.prototype.includes`: substring containment. -/
def hasSub (s pat : List Char) : Bool :=
  match s with
  | [] => pat.isEmpty
  | _ :: rest => pat.isPrefixOf s || hasSub rest pat

/-- `String.prototype.replace` with empty replacement: removes the first
occurrence of `pat`, if any. -/
def replaceFirst (s pat : List Char) : List Char :=
  match s with
  | [] => []
  | c :: rest =>
    if pat.isPrefixOf s then s.drop pat.length
    else c :: replaceFirst rest pat

/-- The secrets bundle (`SecretsConfig`) as a key/value map; `secrets[k]`
is `none` for an absent property. -/
abbrev Secrets := List (String × String)

/-- Property lookup `secrets[k]` on the secrets bundle. -/
def secretEntry (secrets : Secrets) (k : String) : Option String :=
  (secrets.find? (fun kv => kv.1 == k)).map Prod.snd

/-- `NotificationService.getSecretValue`: if the configured string contains
`'-from-secrets'`, look up the string with that occurrence removed in the
secrets bundle, defaulting to `''` (`secrets[secretKey] || ''`; the default
also applies to an empty stored value, which coincides with `''`);
otherwise return the configured string itself. -/
def getSecretValue (secrets : Secrets) (key : String) : String :=
  if hasSub key.data fromSecretsPat then
    let secretKey : String := ⟨replaceFirst key.data fromSecretsPat⟩
    (secretEntry secrets secretKey).getD ""
  else key

/-! ## `ScraperService.executeScraper` -/

/-- Behaviour of the collaborators consulted by `executeScraper`:
configuration retrieval (`configService.getConfig`), secrets retrieval
(`configService.getSecrets`), browser launch
(`FacebookMarketplaceScraper.initialize`) and the scrape itself
(`scraper.scrape(config, cookies)`), each either succeeding or throwing. -/
structure ExecEnv where
  config : Except String AppConfig
  secrets : Except String Secrets
  initBrowser : Except String Unit
  scrape : ScraperConfig → Option String → Except String (List Listing)

/-- Observable outcome of one `executeScraper` invocation: the returned
`ScrapingResult`, the listing table afterwards, the notification payloads
handed to the fan-out, whether a scraper instance was acquired
(`scraper !== null`), whether its browser is (still) open, and whether
`scraper.cleanup()` ran. -/
structure ExecState where
  result : ScrapingResult
  db : Db
  payloads : List NotificationPayload
  scraperAcquired : Bool
  browserOpen : Bool
  cleanupCalled : Bool
deriving DecidableEq, Repr

/-- The failed `ScrapingResult` built in `executeScraper`'s catch block. -/
def failResult (scraperId error : String) (elapsed : Nat) : ScrapingResult :=
  { scraperId := scraperId
    success := false
    error := some error
    newListings := []
    priceDrops := []
    totalFound := 0
    executionTime := elapsed }

/-- The notification payloads built by `ScraperService.sendNotifications`:
one `new_listing` payload per new listing, then one `price_drop` payload per
price drop with percentage `(previousPrice - price) / previousPrice * 100`
(or `0` when `previousPrice` is absent or `0`, both falsy in JS). -/
def mkPayloads (newListings priceDrops : List Listing)
    (config : ScraperConfig) : List NotificationPayload :=
  newListings.map (fun l =>
    { type := "new_listing", listing := l, scraper := config }) ++
  priceDrops.map (fun l =>
    { type := "price_drop", listing := l, scraper := config
      priceDropPercentage := some (match l.previousPrice with
        | some pp => if pp == 0 then 0 else (pp - l.price) / pp * 100
        | none => 0) })

/-- The `try` body of `executeScraper` (every `return` and `throw` path),
before the `finally` block runs. `elapsed` stands for
`Date.now() - startTime` at return. -/
def executeScraperBody (env : ExecEnv) (db : Db) (scraperId : String)
    (now : Int) (elapsed : Nat) : ExecState :=
  match env.config with
  | .error e => ⟨failResult scraperId e elapsed, db, [], false, false, false⟩
  | .ok config =>
    match config.scrapers.find? (fun s => s.id == scraperId) with
    | none =>
      ⟨failResult scraperId
        ("Scraper configuration not found for ID: " ++ scraperId) elapsed,
        db, [], false, false, false⟩
    | some scraperConfig =>
      if scraperConfig.enabled = false then
        ⟨{ scraperId := scraperId
           success := true
           newListings := []
           priceDrops := []
           totalFound := 0
           executionTime := elapsed }, db, [], false, false, false⟩
      else if scraperConfig.marketplace == "facebook" then
        -- scraper := new FacebookMarketplaceScraper(); await scraper.initialize()
        match env.initBrowser with
        | .error e =>
          ⟨failResult scraperId e elapsed, db, [], true, false, false⟩
        | .ok _ =>
          match env.secrets with
          | .error e =>
            ⟨failResult scraperId e elapsed, db, [], true, true, false⟩
          | .ok secrets =>
            let cookies := secretEntry secrets "facebook-cookies"
            match env.scrape scraperConfig cookies with
            | .error e =>
              ⟨failResult scraperId e elapsed, db, [], true, true, false⟩
            | .ok scrapedListings =>
              let r := processListings listOps scrapedListings scraperConfig db now
              ⟨{ scraperId := scraperId
                 success := true
                 newListings := r.1
                 priceDrops := r.2.1
                 totalFound := scrapedListings.length
                 executionTime := elapsed }, r.2.2,
                mkPayloads r.1 r.2.1 scraperConfig, true, true, false⟩
      else
        ⟨failResult scraperId
          ("Unsupported marketplace: " ++ scraperConfig.marketplace) elapsed,
          db, [], false, false, false⟩

/-- `ScraperService.executeScraper`: the `try` body followed by the
`finally` block `if (scraper) await scraper.cleanup()`, which closes the
browser on every exit path on which a scraper was acquired. -/
def executeScraper (env : ExecEnv) (db : Db) (scraperId : String)
    (now : Int) (elapsed : Nat) : ExecState :=
  let s := executeScraperBody env db scraperId now elapsed
  if s.scraperAcquired then
    { s with browserOpen := false, cleanupCalled := true }
  else s

/-! ## Batch scheduler (`handler` in `src/handlers/scheduler.ts`) -/

/-- `ConfigService.getEnabledScrapers`: the enabled watchers, in
configuration order. -/
def getEnabledScrapers (config : AppConfig) : List ScraperConfig :=
  config.scrapers.filter (·.enabled)

/-- The scheduler's handling of one settled promise (lines 89–104): a
fulfilled `executeScraper` result is kept; a rejection is converted into a
failed `ScrapingResult` for that scraper with zero counts. -/
def settle (scraper : ScraperConfig) (outcome : Except String ScrapingResult) :
    ScrapingResult :=
  match outcome with
  | .ok r => r
  | .error e =>
    { scraperId := scraper.id
      success := false
      error := some e
      newListings := []
      priceDrops := []
      totalFound := 0
      executionTime := 0 }

/-- The wave structure of the scheduler loop
`for (let i = 0; i < n; i += maxConcurrent) slice(i, i + maxConcurrent)`.
(With `maxConcurrent = 0` the JS loop would never terminate; the model
returns `[]` there and the theorems assume a positive limit.) -/
def schedBatches (l : List ScraperConfig) (k : Nat) : List (List ScraperConfig) :=
  if h : l = [] ∨ k = 0 then []
  else l.take k :: schedBatches (l.drop k) k
termination_by l.length
decreasing_by
  simp only [not_or] at h
  have hl : l.length ≠ 0 := fun hz => h.1 (List.eq_nil_of_length_eq_zero hz)
  simp only [List.length_drop]
  omega

/-- How many times the scheduler sleeps between waves: the
`if (i + maxConcurrent < enabledScrapers.length)` cooldown at the end of
each iteration. -/
def schedCooldowns (l : List ScraperConfig) (k : Nat) : Nat :=
  if h : l = [] ∨ k = 0 then 0
  else (if k < l.length then 1 else 0) + schedCooldowns (l.drop k) k
termination_by l.length
decreasing_by
  simp only [not_or] at h
  have hl : l.length ≠ 0 := fun hz => h.1 (List.eq_nil_of_length_eq_zero hz)
  simp only [List.length_drop]
  omega

/-- The flat `results` array accumulated by the scheduler loop: every wave
is mapped through `executeScraper` and each settled outcome is pushed in
order. -/
def schedResults (l : List ScraperConfig) (k : Nat)
    (exec : ScraperConfig → Except String ScrapingResult) :
    List ScrapingResult :=
  ((schedBatches l k).map (fun batch => batch.map (fun s => settle s (exec s)))).flatten

/-! ## Concrete fixtures used by the closed instances below -/

/-- A channel configuration with slack and telegram enabled. -/
def sampleNotifications : NotificationConfig :=
  { slack := some { enabled := true, webhook := "slack-webhook-url-from-secrets" }
    telegram := some { enabled := true, botToken := "telegram-bot-token-from-secrets",
                       chatId := "telegram-chat-id-from-secrets" }
    pushover := some { enabled := false, userKey := "k", appToken := "t" } }

/-- An enabled facebook watcher with a 10% price-drop threshold. -/
def sampleConfig : ScraperConfig :=
  { id := "w1", name := "Watcher 1", enabled := true, marketplace := "facebook"
    query := "honda civic", location := "Seattle, WA", radius := 25
    scrollDepth := 3, priceDropThreshold := 1/10
    notifications := sampleNotifications }

/-- An enabled watcher on an unsupported marketplace. -/
def craigslistConfig : ScraperConfig :=
  { sampleConfig with id := "w2", marketplace := "craigslist" }

/-- A disabled watcher. -/
def disabledConfig : ScraperConfig :=
  { sampleConfig with id := "w3", enabled := false }

/-- A stored listing at price 5000 with no previous price. -/
def storedListing : Listing :=
  { scraperId := "w1", listingId := "item1", title := "Honda Civic"
    price := 5000, location := "Seattle, WA", url := "https://example.com/item1"
    firstSeen := "2024-01-01T00:00:00Z", lastSeen := "2024-01-01T00:00:00Z"
    expiresAt := 0 }

/-- The same item observed again at price 4500 (a 10% drop). -/
def observed4500 : Listing :=
  { storedListing with price := 4500, lastSeen := "2024-01-02T00:00:00Z" }

/-- The same item observed again at the unchanged price 5000. -/
def observedSame : Listing :=
  { storedListing with lastSeen := "2024-01-02T00:00:00Z" }

/-- The same item observed a third time at the unchanged price 5000. -/
def observedSame2 : Listing :=
  { storedListing with lastSeen := "2024-01-03T00:00:00Z" }

/-- A one-record table holding `storedListing`. -/
def db0 : Db := [storedListing]

/-- A stored listing at price 0. -/
def zeroStored : Listing := { storedListing with price := 0 }

/-- The fixture watcher with a threshold of exactly 0. -/
def zeroThresholdConfig : ScraperConfig :=
  { sampleConfig with priceDropThreshold := 0 }

/-- The zero-priced item observed again at the increased price 10. -/
def obsIncrease : Listing :=
  { storedListing with price := 10, lastSeen := "2024-01-02T00:00:00Z" }

/-- The configuration set of the three fixture watchers. -/
def appConfig0 : AppConfig := ⟨[sampleConfig, craigslistConfig, disabledConfig]⟩

/-- A secrets bundle. -/
def secrets0 : Secrets :=
  [("facebook-cookies", "cookie=1"), ("slack-webhook-url", "https://hooks.example")]

/-- Collaborators that all succeed, scraping exactly `observed4500`. -/
def envOk : ExecEnv :=
  { config := .ok appConfig0, secrets := .ok secrets0
    initBrowser := .ok (), scrape := fun _ _ => .ok [observed4500] }

/-- An Item Store whose price update finds no prior record (for example
because the record was reclaimed between the read and the update): the
update returns absent and leaves the table unchanged. -/
def absentOnUpdateOps : DbOps Db :=
  { getListing := getListing, saveListing := saveListing
    updateListingPrice := fun db _ _ _ _ _ => (none, db) }

/-- Seven enabled watchers, for the wave-partitioning example. -/
def watchers7 : List ScraperConfig :=
  ["a", "b", "c", "d", "e", "f", "g"].map (fun i => { sampleConfig with id := i })

/-- Channel senders where slack fails and the others succeed. -/
def envMixed : ChannelEnv :=
  { slack := fun _ => .error "slack down"
    telegram := fun _ => .ok ()
    pushover := fun _ => .ok () }

/-- A new-listing payload for the fixture watcher. -/
def payload0 : NotificationPayload :=
  { type := "new_listing", listing := storedListing, scraper := sampleConfig }

/-- Collaborators whose configuration retrieval throws. -/
def envBad : ExecEnv :=
  { config := .error "Configuration parameter not found or empty"
    secrets := .error "Secrets not found or empty"
    initBrowser := .ok (), scrape := fun _ _ => .error "net" }

/-- The record produced by `updateListingPrice` when `listing` is observed
over the stored record `ex`. -/
def refreshedRecord (ex listing : Listing) (now : Int) : Listing :=
  { ex with price := listing.price
            previousPrice := some ex.price
            lastSeen := listing.lastSeen
            expiresAt := now + ttlSeconds }

/-! ## Helper lemmas about the store and the per-item step -/

theorem keyMatches_of_getListing {db : Db} {sid lid : String} {ex : Listing}
    (h : getListing db sid lid = some ex) : keyMatches sid lid ex = true := by
  unfold getListing at h
  exact List.find?_some h

theorem getListing_cons_self {db : Db} {sid lid : String} {u : Listing}
    (h : keyMatches sid lid u = true) : getListing (u :: db) sid lid = some u := by
  unfold getListing
  exact List.find?_cons_of_pos _ h

theorem keyMatches_refreshed (sid lid : String) (ex l : Listing) (now : Int) :
    keyMatches sid lid (refreshedRecord ex l now) = keyMatches sid lid ex := by
  simp [keyMatches, refreshedRecord]

theorem processListings_one_new (config : ScraperConfig) (db : Db) (l : Listing)
    (now : Int) (h : getListing db l.scraperId l.listingId = none) :
    processListings listOps [l] config db now = ([l], [], saveListing db l now) := by
  simp [processListings, listOps, h]

theorem processListings_one_same (config : ScraperConfig) (db : Db) (l ex : Listing)
    (now : Int) (h : getListing db l.scraperId l.listingId = some ex)
    (hp : l.price = ex.price) :
    processListings listOps [l] config db now =
      ([], [], refreshedRecord ex l now ::
        db.filter (fun x => !keyMatches l.scraperId l.listingId x)) := by
  simp only [processListings, listOps, h, hp, ne_eq, not_true_eq_false, if_false,
    updateListingPrice, refreshedRecord]

theorem processListings_one_drop (config : ScraperConfig) (db : Db) (l ex : Listing)
    (now : Int) (h : getListing db l.scraperId l.listingId = some ex)
    (hp : l.price ≠ ex.price)
    (hm : priceDropMeets ex.price l.price config.priceDropThreshold = true) :
    processListings listOps [l] config db now =
      ([], [refreshedRecord ex l now], refreshedRecord ex l now ::
        db.filter (fun x => !keyMatches l.scraperId l.listingId x)) := by
  simp only [processListings, listOps, h, hp, ne_eq, not_false_eq_true, if_true,
    updateListingPrice, refreshedRecord, hm]

theorem processListings_one_below (config : ScraperConfig) (db : Db) (l ex : Listing)
    (now : Int) (h : getListing db l.scraperId l.listingId = some ex)
    (hp : l.price ≠ ex.price)
    (hm : priceDropMeets ex.price l.price config.priceDropThreshold = false) :
    processListings listOps [l] config db now =
      ([], [], refreshedRecord ex l now ::
        db.filter (fun x => !keyMatches l.scraperId l.listingId x)) := by
  simp only [processListings, listOps, h, hp, ne_eq, not_false_eq_true, if_true,
    updateListingPrice, refreshedRecord, hm, Bool.false_eq_true, if_false]

/-- C1: for an observed item processed by the Watch Runner with a threshold
in [0,1) and non-negative prices: with no stored record it is classified
`NewItem` (and saved); with an equal stored price it is `Unchanged` with no
event; with `observed.price < stored.price` and drop fraction ≥ threshold
(boundary inclusive, and forcing `stored.price > 0`) it is a `PriceDrop`
whose percentage is the fraction × 100; otherwise (increase — including
over a zero stored price, where the JS quotient is `-Infinity` and the
threshold test fails — or drop below threshold) no event is raised but the
new price and `previousPrice` are still persisted. -/
theorem processListings_classifies
    (config : ScraperConfig) (db : Db) (listing : Listing) (now : Int)
    (ht0 : 0 ≤ config.priceDropThreshold) (ht1 : config.priceDropThreshold < 1)
    (hobs : 0 ≤ listing.price) :
    (getListing db listing.scraperId listing.listingId = none →
      classify listing.price none config.priceDropThreshold = .NewItem ∧
      processListings listOps [listing] config db now =
        ([listing], [], saveListing db listing now)) ∧
    (∀ ex, getListing db listing.scraperId listing.listingId = some ex →
      listing.price = ex.price →
      classify listing.price (some ex) config.priceDropThreshold = .Unchanged ∧
      (processListings listOps [listing] config db now).1 = [] ∧
      (processListings listOps [listing] config db now).2.1 = []) ∧
    (∀ ex, getListing db listing.scraperId listing.listingId = some ex →
      listing.price < ex.price →
      config.priceDropThreshold ≤ (ex.price - listing.price) / ex.price →
      0 < ex.price ∧
      classify listing.price (some ex) config.priceDropThreshold =
        .PriceDrop ((ex.price - listing.price) / ex.price * 100) ∧
      processListings listOps [listing] config db now =
        ([], [refreshedRecord ex listing now],
          refreshedRecord ex listing now ::
            db.filter (fun x => !keyMatches listing.scraperId listing.listingId x))) ∧
    (∀ ex, getListing db listing.scraperId listing.listingId = some ex →
      0 ≤ ex.price →
      listing.price ≠ ex.price →
      ¬(listing.price < ex.price ∧
        config.priceDropThreshold ≤ (ex.price - listing.price) / ex.price) →
      classify listing.price (some ex) config.priceDropThreshold = .Unchanged ∧
      (processListings listOps [listing] config db now).1 = [] ∧
      (processListings listOps [listing] config db now).2.1 = [] ∧
      getListing (processListings listOps [listing] config db now).2.2
          listing.scraperId listing.listingId =
        some (refreshedRecord ex listing now)) := by
  refine ⟨?_, ?_, ?_, ?_⟩
  · intro h
    exact ⟨rfl, processListings_one_new config db listing now h⟩
  · intro ex h hp
    rw [processListings_one_same config db listing ex now h hp]
    simp [classify, hp]
  · intro ex h hlt hth
    have hpos : 0 < ex.price := lt_of_le_of_lt hobs hlt
    have hne : listing.price ≠ ex.price := ne_of_lt hlt
    have hm : priceDropMeets ex.price listing.price config.priceDropThreshold = true := by
      unfold priceDropMeets
      rw [if_neg hpos.ne']
      simpa [ge_iff_le] using hth
    refine ⟨hpos, ?_, processListings_one_drop config db listing ex now h hne hm⟩
    simp [classify, hne, hm]
  · intro ex h hexnn hne hnd
    have hm : priceDropMeets ex.price listing.price config.priceDropThreshold = false := by
      unfold priceDropMeets
      rcases eq_or_lt_of_le hexnn with hz | hpos
      · rw [if_pos hz.symm]
        have hlp : 0 < listing.price :=
          lt_of_le_of_ne hobs (fun e => hne (by rw [← hz]; exact e.symm))
        simp only [gt_iff_lt, decide_eq_false_iff_not, not_lt]
        rw [← hz]
        linarith
      · rw [if_neg hpos.ne']
        simp only [ge_iff_le, decide_eq_false_iff_not]
        rcases lt_or_gt_of_ne hne with hlt | hgt
        · exact fun hth => hnd ⟨hlt, hth⟩
        · intro hth
          have hfrac : (ex.price - listing.price) / ex.price < 0 :=
            div_neg_of_neg_of_pos (by linarith) hpos
          linarith
    rw [processListings_one_below config db listing ex now h hne hm]
    refine ⟨?_, rfl, rfl, ?_⟩
    · simp [classify, hne, hm]
    · exact getListing_cons_self
        (by rw [keyMatches_refreshed]; exact keyMatches_of_getListing h)

/-- Closed instance of C1, at the spec's boundary example — stored price
5000, observed price 4500, threshold 0.1: a 10% drop, classified
`PriceDrop` at the inclusive boundary — and at the zero-stored-price corner
of the otherwise branch: a price increase over a stored price of 0 with
threshold 0 raises no event (the JS quotient is `-Infinity`), while the new
price and `previousPrice` are persisted. -/
theorem processListings_classifies_witness :
    ((0:ℚ) < storedListing.price ∧
    classify observed4500.price (some storedListing) sampleConfig.priceDropThreshold =
      .PriceDrop ((storedListing.price - observed4500.price) / storedListing.price * 100) ∧
    processListings listOps [observed4500] sampleConfig db0 0 =
      ([], [refreshedRecord storedListing observed4500 0],
        refreshedRecord storedListing observed4500 0 ::
          db0.filter (fun x => !keyMatches observed4500.scraperId observed4500.listingId x))) ∧
    (classify obsIncrease.price (some zeroStored) zeroThresholdConfig.priceDropThreshold =
      .Unchanged ∧
    (processListings listOps [obsIncrease] zeroThresholdConfig [zeroStored] 0).1 = [] ∧
    (processListings listOps [obsIncrease] zeroThresholdConfig [zeroStored] 0).2.1 = [] ∧
    getListing (processListings listOps [obsIncrease] zeroThresholdConfig [zeroStored] 0).2.2
        obsIncrease.scraperId obsIncrease.listingId =
      some (refreshedRecord zeroStored obsIncrease 0)) :=
  ⟨(processListings_classifies sampleConfig db0 observed4500 0
      (by decide) (by decide) (by decide)).2.2.1 storedListing
      (by decide) (by decide) (by decide),
   (processListings_classifies zeroThresholdConfig [zeroStored] obsIncrease 0
      (by decide) (by decide) (by decide)).2.2.2 zeroStored
      (by decide) (by decide) (by decide) (by decide)⟩

/-- C2 counterexample: a stored record with `previousPrice` absent is
observed twice in a row at its unchanged price 5000; afterwards the record's
`previousPrice` is `some 5000`, not absent — the same-price refresh writes
`previousPrice := current price`, contradicting "never fabricates a
`previousPrice`". -/
theorem samePrice_refresh_fabricates_previousPrice :
    storedListing.previousPrice = none ∧
    observedSame.price = storedListing.price ∧
    observedSame2.price = storedListing.price ∧
    (getListing (processListings listOps [observedSame2] sampleConfig
        (processListings listOps [observedSame] sampleConfig db0 0).2.2 1).2.2
        "w1" "item1").map (·.previousPrice) = some (some 5000) := by
  decide

/-- C2 as amended: observing a stored item twice in a row at an unchanged
price updates `lastSeen` and expiry both times and emits no event either
time, but each refresh also writes `previousPrice :=` the (unchanged)
current price — a record without `previousPrice` gains one equal to its
price, and any existing `previousPrice` is overwritten with it. -/
theorem samePrice_refresh_behavior
    (config : ScraperConfig) (db : Db) (ex obs1 obs2 : Listing) (now1 now2 : Int)
    (hk1 : obs2.scraperId = obs1.scraperId) (hk2 : obs2.listingId = obs1.listingId)
    (h : getListing db obs1.scraperId obs1.listingId = some ex)
    (hp1 : obs1.price = ex.price) (hp2 : obs2.price = ex.price) :
    (processListings listOps [obs1] config db now1).1 = [] ∧
    (processListings listOps [obs1] config db now1).2.1 = [] ∧
    getListing (processListings listOps [obs1] config db now1).2.2
        obs1.scraperId obs1.listingId =
      some { ex with price := obs1.price, previousPrice := some ex.price
                     lastSeen := obs1.lastSeen, expiresAt := now1 + ttlSeconds } ∧
    (processListings listOps [obs2] config
        (processListings listOps [obs1] config db now1).2.2 now2).1 = [] ∧
    (processListings listOps [obs2] config
        (processListings listOps [obs1] config db now1).2.2 now2).2.1 = [] ∧
    getListing (processListings listOps [obs2] config
        (processListings listOps [obs1] config db now1).2.2 now2).2.2
        obs1.scraperId obs1.listingId =
      some { ex with price := obs2.price, previousPrice := some ex.price
                     lastSeen := obs2.lastSeen, expiresAt := now2 + ttlSeconds } := by
  have hkey := keyMatches_of_getListing h
  have e1 := processListings_one_same config db obs1 ex now1 h hp1
  have hget1 : getListing (processListings listOps [obs1] config db now1).2.2
      obs1.scraperId obs1.listingId = some (refreshedRecord ex obs1 now1) := by
    rw [e1]
    exact getListing_cons_self (by rw [keyMatches_refreshed]; exact hkey)
  have hget1' : getListing (processListings listOps [obs1] config db now1).2.2
      obs2.scraperId obs2.listingId = some (refreshedRecord ex obs1 now1) := by
    rw [hk1, hk2]; exact hget1
  have hp2' : obs2.price = (refreshedRecord ex obs1 now1).price := by
    simp [refreshedRecord, hp1, hp2]
  have e2 := processListings_one_same config
    (processListings listOps [obs1] config db now1).2.2 obs2
    (refreshedRecord ex obs1 now1) now2 hget1' hp2'
  have hget2 : getListing (processListings listOps [obs2] config
      (processListings listOps [obs1] config db now1).2.2 now2).2.2
      obs1.scraperId obs1.listingId =
      some (refreshedRecord (refreshedRecord ex obs1 now1) obs2 now2) := by
    rw [e2]
    refine getListing_cons_self ?_
    rw [keyMatches_refreshed, keyMatches_refreshed]
    exact hkey
  refine ⟨by rw [e1], by rw [e1], ?_, by rw [e2], by rw [e2], ?_⟩
  · rw [hget1]; rfl
  · rw [hget2]
    simp [refreshedRecord, hp1]

/-- Closed instance of the amended C2: the fixture record is observed at
its unchanged price at times 0 and 1; both refreshes update `lastSeen` and
expiry, no event is emitted, and `previousPrice` ends up `some 5000`. -/
theorem samePrice_refresh_behavior_witness :
    (processListings listOps [observedSame] sampleConfig db0 0).1 = [] ∧
    (processListings listOps [observedSame] sampleConfig db0 0).2.1 = [] ∧
    getListing (processListings listOps [observedSame] sampleConfig db0 0).2.2
        observedSame.scraperId observedSame.listingId =
      some { storedListing with price := observedSame.price
                                previousPrice := some storedListing.price
                                lastSeen := observedSame.lastSeen
                                expiresAt := 0 + ttlSeconds } ∧
    (processListings listOps [observedSame2] sampleConfig
        (processListings listOps [observedSame] sampleConfig db0 0).2.2 1).1 = [] ∧
    (processListings listOps [observedSame2] sampleConfig
        (processListings listOps [observedSame] sampleConfig db0 0).2.2 1).2.1 = [] ∧
    getListing (processListings listOps [observedSame2] sampleConfig
        (processListings listOps [observedSame] sampleConfig db0 0).2.2 1).2.2
        observedSame.scraperId observedSame.listingId =
      some { storedListing with price := observedSame2.price
                                previousPrice := some storedListing.price
                                lastSeen := observedSame2.lastSeen
                                expiresAt := 1 + ttlSeconds } :=
  samePrice_refresh_behavior sampleConfig db0 storedListing observedSame observedSame2 0 1
    (by decide) (by decide) (by decide) (by decide) (by decide)

/-- C7 counterexample: over a store whose price update reports no prior
record, an observed item with an above-threshold price drop is processed
with no price-drop entry, no error indication of any kind, and an unchanged
table — the very outcome of processing nothing at all. The Watch Runner
does not record the absent result as a logic inconsistency; it silently
continues. -/
theorem updatePrice_absent_counterexample :
    (absentOnUpdateOps.updateListingPrice db0 "w1" "item1" observed4500.price
      observed4500.lastSeen 0).1 = none ∧
    observed4500.price < storedListing.price ∧
    sampleConfig.priceDropThreshold ≤
      (storedListing.price - observed4500.price) / storedListing.price ∧
    processListings absentOnUpdateOps [observed4500] sampleConfig db0 0 =
      ([], [], db0) ∧
    processListings absentOnUpdateOps [] sampleConfig db0 0 = ([], [], db0) := by
  decide

/-- C7 as amended: `updateListingPrice` returns absent exactly when no
record exists under the `(watcherId, itemId)` key (leaving the table
unchanged); the Watch Runner, on an absent update result, merely omits the
item from the price-drop list and continues silently — the item produces no
event and no error indication. -/
theorem updatePrice_absent_behavior :
    (∀ (db : Db) (sid lid : String) (p : ℚ) (ls : String) (now : Int),
      getListing db sid lid = none →
      updateListingPrice db sid lid p ls now = (none, db)) ∧
    (∀ (σ : Type) (ops : DbOps σ) (config : ScraperConfig) (obs ex : Listing)
      (db : σ) (now : Int),
      ops.getListing db obs.scraperId obs.listingId = some ex →
      (ops.updateListingPrice db obs.scraperId obs.listingId obs.price
        obs.lastSeen now).1 = none →
      processListings ops [obs] config db now =
        ([], [], (ops.updateListingPrice db obs.scraperId obs.listingId obs.price
          obs.lastSeen now).2)) := by
  constructor
  · intro db sid lid p ls now h
    unfold updateListingPrice
    rw [h]
  · intro σ ops config obs ex db now hget hupd
    simp only [processListings, hget, hupd]
    rw [ite_self]

/-- Closed instance of the amended C7 over the fixture store. -/
theorem updatePrice_absent_behavior_witness :
    updateListingPrice [] "w1" "item1" 4500 "2024-01-02T00:00:00Z" 0 = (none, []) ∧
    processListings absentOnUpdateOps [observed4500] sampleConfig db0 0 =
      ([], [], (absentOnUpdateOps.updateListingPrice db0 observed4500.scraperId
        observed4500.listingId observed4500.price observed4500.lastSeen 0).2) :=
  ⟨updatePrice_absent_behavior.1 [] "w1" "item1" 4500 "2024-01-02T00:00:00Z" 0 (by decide),
   updatePrice_absent_behavior.2 Db absentOnUpdateOps sampleConfig observed4500
     storedListing db0 0 (by decide) (by decide)⟩

/-! ## Scheduler wave lemmas -/

theorem schedBatches_nil (k : Nat) : schedBatches [] k = [] := by
  rw [schedBatches]; simp

theorem schedBatches_ne_nil {l : List ScraperConfig} {k : Nat}
    (hl : l ≠ []) (hk : 0 < k) : schedBatches l k ≠ [] := by
  rw [schedBatches]
  simp only [hl, hk.ne', or_self, dite_false]
  exact List.cons_ne_nil _ _

theorem schedBatches_flatten (l : List ScraperConfig) (k : Nat) (hk : 0 < k) :
    (schedBatches l k).flatten = l := by
  induction l, k using schedBatches.induct with
  | case1 l k h =>
    rw [schedBatches]
    simp only [h, dite_true, List.flatten_nil]
    rcases h with h | h
    · exact h.symm
    · omega
  | case2 l k h ih =>
    rw [schedBatches]
    simp only [h, dite_false, List.flatten_cons]
    rw [ih hk, List.take_append_drop]

theorem schedBatches_sizes (l : List ScraperConfig) (k : Nat) (hk : 0 < k) :
    ∀ b ∈ schedBatches l k, b ≠ [] ∧ b.length ≤ k := by
  induction l, k using schedBatches.induct with
  | case1 l k h =>
    rw [schedBatches]
    simp [h]
  | case2 l k h ih =>
    rw [schedBatches]
    simp only [h, dite_false, List.mem_cons]
    rintro b (rfl | hb)
    · constructor
      · simp only [ne_eq, List.take_eq_nil_iff]
        tauto
      · simp [List.length_take]
    · exact ih hk b hb

theorem schedBatches_full_but_last (l : List ScraperConfig) (k : Nat) (hk : 0 < k) :
    ∀ b ∈ (schedBatches l k).dropLast, b.length = k := by
  induction l, k using schedBatches.induct with
  | case1 l k h =>
    rw [schedBatches]
    simp [h]
  | case2 l k h ih =>
    rw [schedBatches]
    simp only [h, dite_false]
    by_cases hd : l.drop k = []
    · rw [hd, schedBatches_nil]
      simp
    · rw [List.dropLast_cons_of_ne_nil (schedBatches_ne_nil hd hk)]
      simp only [List.mem_cons]
      rintro b (rfl | hb)
      · have hlen : k < l.length := by
          by_contra hle
          exact hd (List.drop_eq_nil_of_le (by omega))
        simp [List.length_take, Nat.min_eq_left hlen.le]
      · exact ih hk b hb

theorem schedBatches_length (l : List ScraperConfig) (k : Nat) (hk : 0 < k) :
    (schedBatches l k).length = (l.length + k - 1) / k := by
  induction l, k using schedBatches.induct with
  | case1 l k h =>
    rw [schedBatches]
    simp only [h, dite_true, List.length_nil]
    rcases h with h | h
    · rw [h]
      simp only [List.length_nil, Nat.zero_add]
      exact (Nat.div_eq_of_lt (by omega)).symm
    · omega
  | case2 l k h ih =>
    have hl : l ≠ [] := fun hz => h (Or.inl hz)
    have hn : 1 ≤ l.length := List.length_pos.mpr hl
    rw [schedBatches]
    simp only [h, dite_false, List.length_cons]
    rw [ih hk, List.length_drop]
    rcases le_or_lt l.length k with hle | hlt
    · have e1 : l.length - k = 0 := by omega
      have e2 : l.length + k - 1 = (l.length - 1) + k := by omega
      rw [e1, e2, Nat.add_div_right _ hk, Nat.zero_add,
        Nat.div_eq_of_lt (by omega), Nat.div_eq_of_lt (by omega)]
    · have e1 : l.length - k + k - 1 = (l.length - k - 1) + k := by omega
      have e2 : l.length + k - 1 = (l.length - 1) + k := by omega
      have e3 : l.length - 1 = (l.length - k - 1) + k := by omega
      rw [e1, e2, Nat.add_div_right _ hk, Nat.add_div_right _ hk, e3,
        Nat.add_div_right _ hk]

theorem schedCooldowns_eq (l : List ScraperConfig) (k : Nat) (hk : 0 < k) :
    schedCooldowns l k = (schedBatches l k).length - 1 := by
  induction l, k using schedCooldowns.induct with
  | case1 l k h =>
    rw [schedCooldowns, schedBatches]
    simp [h]
  | case2 l k h ih =>
    rw [schedCooldowns, schedBatches]
    simp only [h, dite_false, List.length_cons]
    by_cases hlt : k < l.length
    · have hd : l.drop k ≠ [] := by
        simp only [ne_eq, List.drop_eq_nil_iff]
        omega
      have hnn := schedBatches_ne_nil hd hk
      have hpos : 0 < (schedBatches (l.drop k) k).length := List.length_pos.mpr hnn
      rw [if_pos hlt, ih hk]
      omega
    · have hd : l.drop k = [] := List.drop_eq_nil_of_le (by omega)
      rw [if_neg hlt, ih hk, hd, schedBatches_nil]
      simp

/-- C4: with concurrency limit k ≥ 1, the scheduler loop partitions the
enabled watchers into ⌈n/k⌉ consecutive waves of size ≤ k preserving the
original order (the flattening of the waves is the input list and every
wave but the last has size exactly k), waves run sequentially in the loop,
and the cooldown is inserted exactly ⌈n/k⌉ − 1 times — between consecutive
waves, never after the final one. -/
theorem scheduler_waves (l : List ScraperConfig) (k : Nat) (hk : 0 < k) :
    (schedBatches l k).flatten = l ∧
    (∀ b ∈ schedBatches l k, b ≠ [] ∧ b.length ≤ k) ∧
    (∀ b ∈ (schedBatches l k).dropLast, b.length = k) ∧
    (schedBatches l k).length = (l.length + k - 1) / k ∧
    schedCooldowns l k = (schedBatches l k).length - 1 :=
  ⟨schedBatches_flatten l k hk, schedBatches_sizes l k hk,
   schedBatches_full_but_last l k hk, schedBatches_length l k hk,
   schedCooldowns_eq l k hk⟩

/-- Closed instance of C4 at the spec's example: 7 enabled watchers and
limit 3 give 3 waves covering all watchers in order, with exactly 2
cooldowns. -/
theorem scheduler_waves_witness :
    (schedBatches watchers7 3).flatten = watchers7 ∧
    (schedBatches watchers7 3).length = 3 ∧
    schedCooldowns watchers7 3 = 2 := by
  have h := scheduler_waves watchers7 3 (by decide)
  refine ⟨h.1, ?_, ?_⟩
  · rw [h.2.2.2.1]
    decide
  · rw [h.2.2.2.2, h.2.2.2.1]
    decide

/-! ## `executeScraper` result-shape lemmas -/

theorem executeScraper_result (env : ExecEnv) (db : Db) (scraperId : String)
    (now : Int) (elapsed : Nat) :
    (executeScraper env db scraperId now elapsed).result =
      (executeScraperBody env db scraperId now elapsed).result := by
  unfold executeScraper
  dsimp only
  split <;> rfl

theorem executeScraperBody_shape (env : ExecEnv) (db : Db) (scraperId : String)
    (now : Int) (elapsed : Nat) :
    (executeScraperBody env db scraperId now elapsed).result.scraperId = scraperId ∧
    (executeScraperBody env db scraperId now elapsed).result.executionTime = elapsed ∧
    ((executeScraperBody env db scraperId now elapsed).result.success = false →
      (executeScraperBody env db scraperId now elapsed).result.error.isSome = true ∧
      (executeScraperBody env db scraperId now elapsed).result.newListings = [] ∧
      (executeScraperBody env db scraperId now elapsed).result.priceDrops = [] ∧
      (executeScraperBody env db scraperId now elapsed).result.totalFound = 0) := by
  unfold executeScraperBody
  repeat' split
  all_goals try (cases hscr : env.scrape ‹ScraperConfig› (secretEntry ‹Secrets› "facebook-cookies"))
  all_goals simp_all [failResult]

/-- C3: every `executeScraper` invocation yields exactly one result — the
model is a total function — carrying the requested watcher id and the
elapsed time on every path; whenever it reports failure the error message
is set and the item lists and count are empty; a configuration error or a
collector error is captured into such a failed result instead of
propagating; and in the scheduler loop every watcher of every wave
contributes exactly its own settled result, so one watcher's rejection
becomes a failed entry without aborting the run or disturbing the other
watchers of the wave. -/
theorem executeScraper_never_throws (env : ExecEnv) (db : Db) (scraperId : String)
    (now : Int) (elapsed : Nat) :
    (executeScraper env db scraperId now elapsed).result.scraperId = scraperId ∧
    (executeScraper env db scraperId now elapsed).result.executionTime = elapsed ∧
    ((executeScraper env db scraperId now elapsed).result.success = false →
      (executeScraper env db scraperId now elapsed).result.error.isSome = true ∧
      (executeScraper env db scraperId now elapsed).result.newListings = [] ∧
      (executeScraper env db scraperId now elapsed).result.priceDrops = [] ∧
      (executeScraper env db scraperId now elapsed).result.totalFound = 0) ∧
    (∀ e, env.config = Except.error e →
      executeScraper env db scraperId now elapsed =
        ⟨failResult scraperId e elapsed, db, [], false, false, false⟩) ∧
    (∀ (cfg : AppConfig) (sc : ScraperConfig) (secrets : Secrets) (e : String),
      env.config = Except.ok cfg →
      cfg.scrapers.find? (fun s => s.id == scraperId) = some sc →
      sc.enabled = true → (sc.marketplace == "facebook") = true →
      env.initBrowser = Except.ok () → env.secrets = Except.ok secrets →
      env.scrape sc (secretEntry secrets "facebook-cookies") = Except.error e →
      (executeScraper env db scraperId now elapsed).result =
        failResult scraperId e elapsed) ∧
    (∀ (l : List ScraperConfig) (k : Nat)
      (exec : ScraperConfig → Except String ScrapingResult), 0 < k →
      schedResults l k exec = l.map (fun s => settle s (exec s))) := by
  refine ⟨?_, ?_, ?_, ?_, ?_, ?_⟩
  · rw [executeScraper_result]
    exact (executeScraperBody_shape env db scraperId now elapsed).1
  · rw [executeScraper_result]
    exact (executeScraperBody_shape env db scraperId now elapsed).2.1
  · rw [executeScraper_result]
    exact (executeScraperBody_shape env db scraperId now elapsed).2.2
  · intro e hc
    simp [executeScraper, executeScraperBody, hc]
  · intro cfg sc secrets e hc hf he hm hi hs hsc
    simp [executeScraper, executeScraperBody, hc, hf, he, hm, hi, hs, hsc]
  · intro l k exec hk
    unfold schedResults
    rw [← List.map_flatten, schedBatches_flatten l k hk]

/-- Closed instance of C3: a throwing configuration lookup is converted to
a failed result, and a wave in which every promise rejects still yields one
failed entry per watcher. -/
theorem executeScraper_never_throws_witness :
    executeScraper envBad db0 "w1" 0 9 =
      ⟨failResult "w1" "Configuration parameter not found or empty" 9,
        db0, [], false, false, false⟩ ∧
    schedResults [sampleConfig, craigslistConfig] 1 (fun _ => Except.error "boom") =
      [sampleConfig, craigslistConfig].map
        (fun s => settle s (Except.error "boom")) := by
  have h := executeScraper_never_throws envBad db0 "w1" 0 9
  exact ⟨h.2.2.2.1 "Configuration parameter not found or empty" rfl,
    h.2.2.2.2.2 [sampleConfig, craigslistConfig] 1
      (fun _ => Except.error "boom") (by decide)⟩

/-- C5: for a watcher whose configuration is found but disabled,
`executeScraper` returns the "disabled" result (success, zero counts, the
elapsed time) while leaving the table untouched, handing nothing to the
notification fan-out, and never acquiring the Source Collector — the
returned state is a constant in the collector, secrets and browser
behaviours; and the scheduler's `getEnabledScrapers` filter admits exactly
the enabled watchers, so a disabled watcher never enters a wave. -/
theorem disabled_watcher_skipped (env : ExecEnv) (db : Db) (scraperId : String)
    (now : Int) (elapsed : Nat) (cfg : AppConfig) (sc : ScraperConfig)
    (hc : env.config = Except.ok cfg)
    (hf : cfg.scrapers.find? (fun s => s.id == scraperId) = some sc)
    (hd : sc.enabled = false) :
    executeScraper env db scraperId now elapsed =
      ⟨{ scraperId := scraperId, success := true, error := none, newListings := [],
         priceDrops := [], totalFound := 0, executionTime := elapsed },
        db, [], false, false, false⟩ ∧
    (∀ s, s ∈ getEnabledScrapers cfg ↔ s ∈ cfg.scrapers ∧ s.enabled = true) ∧
    sc ∉ getEnabledScrapers cfg := by
  refine ⟨?_, ?_, ?_⟩
  · simp [executeScraper, executeScraperBody, hc, hf, hd]
  · intro s
    simp [getEnabledScrapers, List.mem_filter]
  · simp [getEnabledScrapers, List.mem_filter, hd]

/-- Closed instance of C5: the disabled fixture watcher returns the
disabled result with an unchanged table and no payloads, and is excluded
from the enabled-watchers list. -/
theorem disabled_watcher_skipped_witness :
    executeScraper envOk db0 "w3" 0 4 =
      ⟨{ scraperId := "w3", success := true, error := none, newListings := [],
         priceDrops := [], totalFound := 0, executionTime := 4 },
        db0, [], false, false, false⟩ ∧
    disabledConfig ∉ getEnabledScrapers appConfig0 := by
  have h := disabled_watcher_skipped envOk db0 "w3" 0 4 appConfig0 disabledConfig
    rfl (by decide) (by decide)
  exact ⟨h.1, h.2.2⟩

/-- C6: notification dispatch is a total function that attempts exactly the
enabled channels of the watcher's channel configuration, in the fixed
slack/telegram/pushover order, pairing each channel with its own sender's
outcome — so one channel's failure cannot block, cancel or be reported as
another channel's delivery and nothing propagates to the caller — and with
zero enabled channels the dispatch is a no-op returning the empty outcome
list. -/
theorem dispatch_fanout (env : ChannelEnv) (payload : NotificationPayload) :
    sendNotifications env payload =
      (enabledChannels payload.scraper.notifications).map
        (fun name => (name, channelSend env name payload)) ∧
    (enabledChannels payload.scraper.notifications = [] →
      sendNotifications env payload = []) := by
  have hmap : sendNotifications env payload =
      (enabledChannels payload.scraper.notifications).map
        (fun name => (name, channelSend env name payload)) := by
    unfold sendNotifications enabledChannels channelSend
    cases h1 : payload.scraper.notifications.slack.any (·.enabled) <;>
    cases h2 : payload.scraper.notifications.telegram.any (·.enabled) <;>
    cases h3 : payload.scraper.notifications.pushover.any (·.enabled) <;>
      simp
  refine ⟨hmap, fun h => ?_⟩
  rw [hmap, h]
  rfl

/-- Closed instance of C6: with slack enabled but failing and telegram
enabled and succeeding, both deliveries are attempted, the slack failure is
recorded in its own slot only, and the dispatch still returns normally. -/
theorem dispatch_fanout_witness :
    sendNotifications envMixed payload0 =
      [("slack", Except.error "slack down"), ("telegram", Except.ok ())] := by
  rw [(dispatch_fanout envMixed payload0).1]
  rfl

/-- C8: every exit path of `executeScraper` ends with the browser session
closed, and on every path that acquired a scraper instance the `finally`
cleanup has run before the invocation returns. -/
theorem collector_resources_released (env : ExecEnv) (db : Db) (scraperId : String)
    (now : Int) (elapsed : Nat) :
    (executeScraper env db scraperId now elapsed).browserOpen = false ∧
    ((executeScraper env db scraperId now elapsed).scraperAcquired = true →
      (executeScraper env db scraperId now elapsed).cleanupCalled = true) := by
  unfold executeScraper executeScraperBody
  repeat' split
  all_goals try (cases hscr : env.scrape ‹ScraperConfig› (secretEntry ‹Secrets› "facebook-cookies"))
  all_goals simp_all

/-- Closed instance of C8 on a successful facebook run: the scraper was
acquired, cleanup ran, and the browser is closed on return. -/
theorem collector_resources_released_witness :
    (executeScraper envOk db0 "w1" 0 5).scraperAcquired = true ∧
    (executeScraper envOk db0 "w1" 0 5).cleanupCalled = true ∧
    (executeScraper envOk db0 "w1" 0 5).browserOpen = false := by
  have h := collector_resources_released envOk db0 "w1" 0 5
  exact ⟨by decide, h.2 (by decide), h.1⟩

/-- C10: an enabled watcher on any marketplace other than `'facebook'`
(such as `'craigslist'` or `'ebay'`) yields a failed result whose error
names the unsupported marketplace, with zero counts, an unchanged table, no
payloads and no collector acquisition — returned, not thrown. -/
theorem unsupported_marketplace_fails (env : ExecEnv) (db : Db) (scraperId : String)
    (now : Int) (elapsed : Nat) (cfg : AppConfig) (sc : ScraperConfig)
    (hc : env.config = Except.ok cfg)
    (hf : cfg.scrapers.find? (fun s => s.id == scraperId) = some sc)
    (he : sc.enabled = true) (hm : sc.marketplace ≠ "facebook") :
    executeScraper env db scraperId now elapsed =
      ⟨failResult scraperId ("Unsupported marketplace: " ++ sc.marketplace) elapsed,
        db, [], false, false, false⟩ := by
  have hm' : (sc.marketplace == "facebook") = false := by
    simp [hm]
  simp [executeScraper, executeScraperBody, hc, hf, he, hm']

/-- Closed instance of C10 on the enabled craigslist fixture watcher. -/
theorem unsupported_marketplace_fails_witness :
    executeScraper envOk db0 "w2" 0 6 =
      ⟨failResult "w2" ("Unsupported marketplace: " ++ craigslistConfig.marketplace) 6,
        db0, [], false, false, false⟩ :=
  unsupported_marketplace_fails envOk db0 "w2" 0 6 appConfig0 craigslistConfig
    rfl (by decide) (by decide) (by decide)

/-! ## String lemmas for secret resolution -/

theorem isPrefixOf_self (l : List Char) : l.isPrefixOf l = true := by
  induction l with
  | nil => rfl
  | cons c cs ih => simp [List.isPrefixOf, ih]

theorem hasSub_append_self (xs pat : List Char) : hasSub (xs ++ pat) pat = true := by
  induction xs with
  | nil =>
    cases pat with
    | nil => rfl
    | cons c cs =>
      show hasSub (c :: cs) (c :: cs) = true
      unfold hasSub
      rw [isPrefixOf_self]
      rfl
  | cons c cs ih =>
    show hasSub (c :: (cs ++ pat)) pat = true
    unfold hasSub
    rw [ih]
    simp

theorem replaceFirst_append_self (xs pat : List Char)
    (h : ∀ i, i < xs.length → pat.isPrefixOf ((xs ++ pat).drop i) = false) :
    replaceFirst (xs ++ pat) pat = xs := by
  induction xs with
  | nil =>
    cases pat with
    | nil => rfl
    | cons c cs =>
      show replaceFirst (c :: cs) (c :: cs) = []
      unfold replaceFirst
      rw [isPrefixOf_self]
      simp
  | cons c cs ih =>
    have h0 := h 0 (by simp)
    simp only [List.cons_append, List.drop_zero] at h0
    show replaceFirst (c :: (cs ++ pat)) pat = c :: cs
    unfold replaceFirst
    rw [h0]
    simp only [Bool.false_eq_true, if_false, List.cons.injEq, true_and]
    apply ih
    intro i hi
    have hs := h (i + 1) (by simpa using Nat.succ_lt_succ hi)
    simpa using hs

/-- C9: a configured channel credential that contains the substring
`'-from-secrets'` resolves through the secrets bundle — for a credential of
the form `base ++ "-from-secrets"` whose earlier positions hold no other
occurrence of the pattern, the result is the bundle entry keyed `base`, or
`""` when that entry is absent; a credential without the substring is
returned literally. -/
theorem getSecretValue_resolution :
    (∀ (secrets : Secrets) (key : String),
      hasSub key.data fromSecretsPat = false → getSecretValue secrets key = key) ∧
    (∀ (secrets : Secrets) (base : String),
      (∀ i, i < base.data.length →
        fromSecretsPat.isPrefixOf ((base.data ++ fromSecretsPat).drop i) = false) →
      getSecretValue secrets ⟨base.data ++ fromSecretsPat⟩ =
        (secretEntry secrets base).getD "") := by
  constructor
  · intro secrets key h
    unfold getSecretValue
    rw [h]
    simp
  · intro secrets base h
    unfold getSecretValue
    have hsub : hasSub (String.mk (base.data ++ fromSecretsPat)).data fromSecretsPat = true :=
      hasSub_append_self base.data fromSecretsPat
    rw [hsub]
    simp only [if_true]
    have hrep : replaceFirst (String.mk (base.data ++ fromSecretsPat)).data fromSecretsPat
        = base.data := replaceFirst_append_self base.data fromSecretsPat h
    rw [hrep]

/-- Closed instance of C9: `"slack-webhook-url-from-secrets"` resolves to
the bundle's `slack-webhook-url` entry, `"telegram-bot-token-from-secrets"`
resolves to `""` because the bundle lacks that entry, and a literal webhook
URL is returned unchanged. -/
theorem getSecretValue_resolution_witness :
    getSecretValue secrets0 "slack-webhook-url-from-secrets" = "https://hooks.example" ∧
    getSecretValue secrets0 "telegram-bot-token-from-secrets" = "" ∧
    getSecretValue secrets0 "https://direct.example" = "https://direct.example" := by
  have h := getSecretValue_resolution
  have e1 : (⟨"slack-webhook-url".data ++ fromSecretsPat⟩ : String) =
      "slack-webhook-url-from-secrets" := by decide
  have e2 : (⟨"telegram-bot-token".data ++ fromSecretsPat⟩ : String) =
      "telegram-bot-token-from-secrets" := by decide
  refine ⟨?_, ?_, h.1 secrets0 "https://direct.example" (by decide)⟩
  · have hx := h.2 secrets0 "slack-webhook-url" (by decide)
    rw [e1] at hx
    rw [hx]
    decide
  · have hx := h.2 secrets0 "telegram-bot-token" (by decide)
    rw [e2] at hx
    rw [hx]
    decide
